import Mathlib

/-!
Verification of the streaming RouterOS reply decoder
(`src/dist/connector/Receiver.js`) against its specification.

The decoder consumes arbitrarily chunked byte streams, carves out
length-prefixed words, queues them as "sentences", classifies them
(tag assignment / reply marker / attribute) and dispatches completed
packets to per-tag callbacks.

Modelling conventions:
* A byte buffer is a `List Nat` (each entry `< 256` on real input).
* `iconv.decode(buf, "win1252")` is injective byte-per-char, and every
  protocol-relevant character is ASCII, so a decoded string is modelled
  by its byte list (`Word := List Nat`); string prefix tests and
  `substring` become list operations on the bytes.
* JavaScript numbers that can become `NaN` are modelled as `Option Int`
  with `none` = NaN.  Out-of-range `Buffer` indexing yields `undefined`,
  and `undefined` entering `+` yields NaN (`jadd`), while `<< 8` first
  coerces with `ToInt32` (so `NaN << 8 = 0`, and results wrap to signed
  32-bit range, `jsToInt32`).
* The tag registry (`this.tags`, populated by `read`/`stop` before data
  is fed) is passed as an environment `Env`: a map from tag to the
  registered callback, where a callback may throw (`Except.error`).
  Invoking a callback is recorded in the `dispatched` log; a callback
  exception or an unregistered tag increments `errorsLogged`;
  `socket.emit("fatal")` increments `fatalCount`.
* The two loops (`while` in `processRawData`, the inner `process`
  recursion in `processSentence`) are written with an explicit fuel
  argument so that they compute by kernel reduction.  Every iteration
  of the raw-data loop consumes at least one byte and every iteration
  of the pump removes one queued sentence, so the fuel supplied by the
  wrappers (`length + 1`) is never exhausted.
-/

namespace StreamApi

/-- A protocol word, as the byte list underlying its win1252 decoding. -/
abbrev Word := List Nat

/-- Bytes of `"!empty"`. -/
def emptyW : Word := [33, 101, 109, 112, 116, 121]

/-- Bytes of `"!done"`. -/
def doneW : Word := [33, 100, 111, 110, 101]

/-- Bytes of `"!fatal"`. -/
def fatalW : Word := [33, 102, 97, 116, 97, 108]

/-- Bytes of `"!re"`. -/
def reW : Word := [33, 114, 101]

/-- Bytes of `".tag="` (the prefix tested by `/^\.tag=/`). -/
def dotTagW : Word := [46, 116, 97, 103, 61]

/-- Bytes of `".tag=1"`. -/
def dotTag1W : Word := [46, 116, 97, 103, 61, 49]

/-- Bytes of `".tag=7"`. -/
def dotTag7W : Word := [46, 116, 97, 103, 61, 55]

/-- Bytes of `"name=alice"`. -/
def nameAliceW : Word := [110, 97, 109, 101, 61, 97, 108, 105, 99, 101]

/-- JavaScript `ToInt32`: wrap an integer to the signed 32-bit range. -/
def jsToInt32 (x : Int) : Int :=
  let r := x % 4294967296
  if r < 2147483648 then r else r - 4294967296

/-- JavaScript `+` on possibly-NaN numbers: NaN is absorbing. -/
def jadd : Option Int → Option Int → Option Int
  | some a, some b => some (a + b)
  | _, _ => none

/-- JavaScript `x << 8`: `ToInt32(NaN) = 0`, and the shift wraps to
signed 32-bit. -/
def jshl8 : Option Int → Option Int
  | none => some 0
  | some x => some (jsToInt32 (jsToInt32 x * 256))

/-- Reading `data[i]` on a `Buffer`: `undefined` (here `none`) when out of range. -/
def jbyte (data : List Nat) (i : Nat) : Option Int :=
  (data[i]?).map (fun b => (b : Int))

/-- JavaScript `x > 0` on a possibly-NaN number (`NaN > 0` is false). -/
def jgt0 : Option Int → Bool
  | some n => decide (0 < n)
  | none => false

/-- The method `decodeLength` (Receiver.js lines 189-217): reads the variable-width
length descriptor at the start of `data`, returning the number of bytes
consumed (`idx`) and the decoded length.  Reads past the end of the
buffer produce `undefined`, which the additions turn into NaN. -/
def decodeLength (data : List Nat) : Nat × Option Int :=
  match data with
  | [] => (1, none)
  | b :: _ =>
    if b &&& 128 ≠ 0 then
      if b &&& 192 = 128 then
        (2, jadd (some (((b &&& 63) <<< 8 : Nat) : Int)) (jbyte data 1))
      else if b &&& 224 = 192 then
        (3, jadd (jshl8 (jadd (some (((b &&& 31) <<< 8 : Nat) : Int)) (jbyte data 1)))
              (jbyte data 2))
      else if b &&& 240 = 224 then
        (4, jadd (jshl8 (jadd (jshl8 (jadd (some (((b &&& 15) <<< 8 : Nat) : Int))
              (jbyte data 1))) (jbyte data 2))) (jbyte data 3))
      else
        (5, jadd (jshl8 (jadd (jshl8 (jadd (jshl8 (jbyte data 1)) (jbyte data 2)))
              (jbyte data 3))) (jbyte data 4))
    else (1, some (b : Int))

/-- The descriptor width implied by a first byte (mirrors the branch
structure of `decodeLength`). -/
def descWidth (b : Nat) : Nat :=
  if b &&& 128 ≠ 0 then
    if b &&& 192 = 128 then 2
    else if b &&& 224 = 192 then 3
    else if b &&& 240 = 224 then 4
    else 5
  else 1

/-- Modelled from the spec: the length-descriptor ENCODER is not part of
src (the command-encoding/sender side is out of scope, spec section 1),
so the canonical encoding of the five descriptor classes of spec
section 3 is defined here from the spec's words: smallest class that can
represent `n`, high bits of the first byte marking the class, remaining
bits/bytes holding `n` big-endian; the 5-byte class stores `n` in the
four bytes after a `1111xxxx` first byte (low bits of the first byte
unused, written 0). -/
def encodeLength (n : Nat) : List Nat :=
  if n ≤ 127 then [n]
  else if n ≤ 16383 then [128 + n / 256, n % 256]
  else if n ≤ 2097151 then [192 + n / 65536, n / 256 % 256, n % 256]
  else if n ≤ 268435455 then
    [224 + n / 16777216, n / 65536 % 256, n / 256 % 256, n % 256]
  else [240, n / 16777216 % 256, n / 65536 % 256, n / 256 % 256, n % 256]

/-- The interface `ISentence` (Receiver.d.ts): a queued sentence line plus the flag
telling whether more bytes were pending in the chunk that produced it. -/
structure ISentence where
  sentence : Word
  hadMore : Bool
deriving DecidableEq

/-- The mutable state of `class Receiver`, plus three observation logs:
`dispatched` records each callback invocation `(tag, packet)`,
`fatalCount` counts `socket.emit("fatal")`, `errorsLogged` counts the
`error(...)` log calls in `sendTagData` (callback threw / unregistered
tag). -/
structure Receiver where
  dataLength : Option Int
  sentencePipe : List ISentence
  processingSentencePipe : Bool
  currentLine : Word
  currentReply : Word
  currentTag : Option Word
  currentPacket : List Word
  lengthDescriptorSegment : Option (List Nat)
  dispatched : List (Word × List Word)
  fatalCount : Nat
  errorsLogged : Nat
deriving DecidableEq

/-- The tag registry: `read(tag, callback)` entries.  A callback takes
the packet and either returns or throws. -/
abbrev Env := Word → Option (List Word → Except Unit Unit)

/-- State after the constructor. -/
def initReceiver : Receiver :=
  { dataLength := some 0
    sentencePipe := []
    processingSentencePipe := false
    currentLine := []
    currentReply := []
    currentTag := none
    currentPacket := []
    lengthDescriptorSegment := none
    dispatched := []
    fatalCount := 0
    errorsLogged := 0 }

/-- JavaScript truthiness of `this.currentTag` (`null` and `""` are
falsy). -/
def tagTruthy : Option Word → Bool
  | some t => !t.isEmpty
  | none => false

/-- The method `cleanUp` (lines 181-185). -/
def cleanUp (s : Receiver) : Receiver :=
  { s with currentPacket := [], currentTag := none, currentReply := [] }

/-- The method `sendTagData` (lines 161-177): look the tag up; if registered,
invoke the callback with the current packet, catching (and logging) any
exception; if unregistered, log and drop.  Always `cleanUp` after. -/
def sendTagData (env : Env) (s : Receiver) (tag : Word) : Receiver :=
  cleanUp <|
    match env tag with
    | some cb =>
      let s1 := { s with dispatched := s.dispatched ++ [(tag, s.currentPacket)] }
      match cb s.currentPacket with
      | Except.ok _ => s1
      | Except.error _ => { s1 with errorsLogged := s1.errorsLogged + 1 }
    | none => { s with errorsLogged := s.errorsLogged + 1 }

/-- Lines 126-141 of `processSentence`: classify one dequeued line as a
tag assignment (`/^\.tag=/`), a reply marker (`/^!/`, flushing the
packet to the currently open tag first), or a plain attribute word. -/
def classifySentence (env : Env) (line : ISentence) (s : Receiver) : Receiver :=
  if dotTagW.isPrefixOf line.sentence then
    { s with currentTag := some (line.sentence.drop 5) }
  else if line.sentence.head? = some 33 then
    let s1 := if tagTruthy s.currentTag then sendTagData env s (s.currentTag.getD []) else s
    { s1 with currentPacket := s1.currentPacket ++ [line.sentence],
              currentReply := line.sentence }
  else
    { s with currentPacket := s.currentPacket ++ [line.sentence] }

/-- The inner `process` closure of `processSentence` (lines 97-156):
dequeue one sentence at a time; handle `!empty` (synthesize `!done` and
flush if a tag is open, else ignore) and the fatal check (no trailing
bytes while the current reply classification is `!fatal`) with early
return; otherwise classify and, once the pipe is empty and no bytes are
owed, apply the flush-at-end rule.  The fuel argument bounds the
recursion; callers supply `pipe length + 1`, which is never exhausted
since each iteration dequeues one sentence. -/
def process (env : Env) : Nat → Receiver → Receiver
  | 0, s => s
  | fuel + 1, s =>
    match s.sentencePipe with
    | [] => { s with processingSentencePipe := false }
    | line :: rest =>
      let s0 := { s with sentencePipe := rest }
      if line.sentence = emptyW then
        if tagTruthy s0.currentTag then
          let s1 := { s0 with currentPacket := s0.currentPacket ++ [doneW] }
          let s2 := sendTagData env s1 (s1.currentTag.getD [])
          { s2 with processingSentencePipe := false }
        else
          { s0 with processingSentencePipe := false }
      else if line.hadMore = false ∧ s0.currentReply = fatalW then
        { s0 with fatalCount := s0.fatalCount + 1, processingSentencePipe := false }
      else
        let s3 := classifySentence env line s0
        if s3.sentencePipe = [] ∧ s3.dataLength = some 0 then
          if line.hadMore = false ∧ tagTruthy s3.currentTag then
            let s4 := sendTagData env s3 (s3.currentTag.getD [])
            { s4 with processingSentencePipe := false }
          else
            { s3 with processingSentencePipe := false }
        else
          process env fuel s3

/-- The method `processSentence` (lines 92-157): re-entrancy guard plus the pump. -/
def processSentence (env : Env) (s : Receiver) : Receiver :=
  if s.processingSentencePipe then s
  else process env (s.sentencePipe.length + 1) { s with processingSentencePipe := true }

/-- Lines 78-84 (the `dataLength == 0` branch of the raw-data loop):
read a descriptor, set `dataLength`, and apply the null-word quirk
(declared length 1 and the whole remaining buffer equal to a single
zero byte is treated as a sentence terminator). -/
def startWord (s : Receiver) (data : List Nat) : Receiver × List Nat :=
  let dl := decodeLength data
  let s1 := { s with dataLength := dl.2 }
  let data1 := data.drop dl.1
  if s1.dataLength = some (1 : Int) ∧ data1 = [0] then
    ({ s1 with dataLength := some 0 }, data1.drop 1)
  else (s1, data1)

/-- The `while (data.length > 0)` loop of `processRawData`
(lines 38-86).  The fuel argument bounds the iteration count; callers
supply `data length + 1`, which is never exhausted since every
iteration either ends the loop or consumes at least one byte. -/
def rawLoop (env : Env) : Nat → Receiver → List Nat → Receiver
  | 0, s, _ => s
  | fuel + 1, s, data =>
    if data.isEmpty then s
    else if jgt0 s.dataLength then
      let n := s.dataLength.getD 0
      if (data.length : Int) ≤ n then
        -- lines 40-52: the chunk ends at or before the end of the word
        let s1 := { s with dataLength := some (n - data.length),
                           currentLine := s.currentLine ++ data }
        if s1.dataLength = some 0 then
          let s2 := { s1 with sentencePipe := s1.sentencePipe ++
                        [⟨s1.currentLine, decide ((data.length : Int) ≠ n - data.length)⟩] }
          let s3 := processSentence env s2
          { s3 with currentLine := [] }
        else s1
      else
        -- lines 53-75: the word completes with bytes to spare; read the
        -- next descriptor before queueing the completed line
        let s1 := { s with currentLine := s.currentLine ++ data.take n.toNat }
        let line := s1.currentLine
        let s2 := { s1 with currentLine := [] }
        let data1 := data.drop n.toNat
        let dl := decodeLength data1
        let s3 := if dl.1 > data1.length
                  then { s2 with lengthDescriptorSegment := some data1 } else s2
        let s4 := { s3 with dataLength := dl.2 }
        let data2 := data1.drop dl.1
        let step := if s4.dataLength = some (1 : Int) ∧ data2 = [0]
                    then ({ s4 with dataLength := some 0 }, data2.drop 1)
                    else (s4, data2)
        let s5 := step.1
        let data3 := step.2
        let s6 := { s5 with sentencePipe := s5.sentencePipe ++
                      [⟨line, decide (0 < data3.length)⟩] }
        let s7 := processSentence env s6
        rawLoop env fuel s7 data3
    else
      -- lines 77-85: no word in progress, read the next descriptor
      let step := startWord s data
      rawLoop env fuel step.1 step.2

/-- The method `processRawData` (lines 33-87): prepend a saved partial length
descriptor, then run the byte loop. -/
def processRawData (env : Env) (s : Receiver) (data : List Nat) : Receiver :=
  match s.lengthDescriptorSegment with
  | some seg =>
    rawLoop env ((seg ++ data).length + 1)
      { s with lengthDescriptorSegment := none } (seg ++ data)
  | none => rawLoop env (data.length + 1) s data

/-- Feed a sequence of chunks in order. -/
def runChunks (env : Env) (s : Receiver) (chunks : List (List Nat)) : Receiver :=
  chunks.foldl (processRawData env) s

/-- A registered callback that returns normally. -/
def okCb : List Word → Except Unit Unit := fun _ => Except.ok ()

/-- Registry with no tags registered. -/
def env0 : Env := fun _ => none

/-- Registry with a (well-behaved) callback registered for tag `"1"`. -/
def env1 : Env := fun t => if t = [49] then some okCb else none

/-- Registry with a (well-behaved) callback registered for tag `"7"`. -/
def env7 : Env := fun t => if t = [55] then some okCb else none

/-- Registry whose every callback throws. -/
def envThrow : Env := fun _ => some (fun _ => Except.error ())

/-- The C1 example stream: words `.tag=1`, `!re`, `name=alice`,
terminator, `.tag=1`, `!done`, terminator, each word with its one-byte
length descriptor (37 bytes in total). -/
def msgC1 : List Nat :=
  [6] ++ dotTag1W ++ [3] ++ reW ++ [10] ++ nameAliceW ++ [0, 6] ++ dotTag1W
    ++ [5] ++ doneW ++ [0]

/-- A well-formed stream: sentence `!re`, `.tag=1`, terminator. -/
def msgC2 : List Nat := [3] ++ reW ++ [6] ++ dotTag1W ++ [0]

/-- A well-formed stream: sentence `.tag=7`, `!empty`, terminator. -/
def msgC4 : List Nat := [6] ++ dotTag7W ++ [6] ++ emptyW ++ [0]

/-- A well-formed stream: sentence `!fatal`, terminator. -/
def msgC5 : List Nat := [6] ++ fatalW ++ [0]

/-! ## Claim C1 -/

/-- C1, counterexample: delivering the C1 example stream in two
fragments (split after byte 18, one of the "arbitrary" splits the claim
quantifies over) invokes tag `1`'s callback twice, but with the packets
`[]` and `["!re", "name=alice"]` — not with `["!re", "name=alice"]` and
`["!done"]` as the claim states. -/
theorem C1_counterexample :
    (runChunks env1 initReceiver [msgC1.take 18, msgC1.drop 18]).dispatched
      = [([49], []), ([49], [reW, nameAliceW])] ∧
    (runChunks env1 initReceiver [msgC1.take 18, msgC1.drop 18]).dispatched
      ≠ [([49], [reW, nameAliceW]), ([49], [doneW])] := by
  decide

/-- C1, amended: for every split of the C1 example stream into two
fragments, tag `1`'s callback is invoked exactly twice: first with the
empty packet (flushed when `!re` arrives while tag `1` is open), then
with `["!re", "name=alice"]` (flushed when `!done` arrives); the
`["!done"]` packet itself is never dispatched. -/
theorem C1_amended : ∀ k : Nat, k < 38 →
    (runChunks env1 initReceiver [msgC1.take k, msgC1.drop k]).dispatched
      = [([49], []), ([49], [reW, nameAliceW])] := by
  decide

/-- C1, witness for the amended theorem at the concrete split 18. -/
theorem C1_witness :
    (runChunks env1 initReceiver [msgC1.take 18, msgC1.drop 18]).dispatched
      = [([49], []), ([49], [reW, nameAliceW])] :=
  C1_amended 18 (by decide)

/-! ## Claim C2 -/

/-- C2: the code does not deliver split-invariance.  For the well-formed
stream `!re`, `.tag=1`, terminator with tag `1` registered, one-chunk
delivery dispatches the packet `["!re"]` to tag `1` (the flush-at-end
rule fires because the terminator was consumed with no trailing bytes),
while delivery split before the final terminator byte dispatches
nothing at all: the word `.tag=1` then completes exactly at the end of
the first chunk, which queues it with `hadMore = true` (line 46 compares
`data.length` against the just-zeroed `dataLength`), so the
flush-at-end rule never fires and the lone terminator in the second
chunk produces no further sentence. -/
theorem C2_divergence :
    (runChunks env1 initReceiver [msgC2]).dispatched = [([49], [reW])] ∧
    (runChunks env1 initReceiver [msgC2.take 11, msgC2.drop 11]).dispatched = [] := by
  decide

/-! ## Claim C3 -/

/-- C3, counterexample: the 5-byte descriptor class is decoded with
JavaScript's signed 32-bit `<<`, so the spec encoding of `2^31` decodes
to `2^31 - 2^32 = -2^31`, not to `2^31`. -/
theorem C3_counterexample :
    decodeLength (encodeLength 2147483648) = (5, some (-2147483648)) ∧
    decodeLength (encodeLength 2147483648)
      ≠ ((encodeLength 2147483648).length, some ((2147483648 : Nat) : Int)) := by
  decide

/-! ## Claim C5 -/

/-- C5, counterexample: feeding the sentence `!fatal`, terminator (with
no further bytes pending) to a fresh receiver emits no fatal event at
all — the `!fatal` line itself only sets the reply classification
(line 137); the guard on line 121 compares `currentReply` before this
line's classification runs, so the signal can only fire on a later
sentence.  The claim's "exactly once" is violated. -/
theorem C5_counterexample :
    (runChunks env0 initReceiver [msgC5]).fatalCount = 0 := by
  decide

/-! ## Claim C7 -/

/-- C7, counterexample: a call to `processSentence` on a queue holding
`!empty` followed by another sentence returns with the re-entrancy
guard cleared while the second sentence is still queued — the `!empty`
branch returns early without draining the pipe. -/
theorem C7_counterexample :
    (processSentence env0
        { initReceiver with sentencePipe := [⟨emptyW, false⟩, ⟨[120], false⟩] }
      ).processingSentencePipe = false ∧
    (processSentence env0
        { initReceiver with sentencePipe := [⟨emptyW, false⟩, ⟨[120], false⟩] }
      ).sentencePipe ≠ [] := by
  decide

/-! ## Claim C8 -/

/-- C8, counterexample: the remaining-bytes-owed counter is not always a
non-negative integer.  A 5-byte length descriptor whose first payload
byte is `0x80` drives `dataLength` to `-2^31` (signed 32-bit shift), and
a 2-byte descriptor split across a chunk boundary leaves `dataLength`
as NaN (the second byte is read as `undefined`). -/
theorem C8_counterexample :
    (processRawData env0 initReceiver [240, 128, 0, 0, 0]).dataLength
      = some (-2147483648) ∧ (-2147483648 : Int) < 0 ∧
    (processRawData env0 initReceiver [130]).dataLength = none := by
  decide

/-! ## Claim C10 -/

set_option maxRecDepth 4096 in
/-- C10: a word declared with length 1 whose payload is the zero byte is
recognized as a sentence terminator exactly when that zero byte is the
last byte remaining in the chunk at descriptor time (line 66 compares
the whole remaining buffer with the single null byte): feeding `[1, 0]`
consumes the null as a terminator (no word is produced, nothing queued,
no byte owed), while feeding `[1, 0, b]` for any following byte `b`
instead consumes the null as the one-byte payload of an ordinary word,
which ends up appended to the current packet; the same two bytes split
as chunks `[1]`, `[0]` also produce the payload word, so recognition
depends on where chunk boundaries fall. -/
theorem C10_null_terminator : ∀ b : Nat, b < 256 →
    (processRawData env0 initReceiver [1, 0]).currentPacket = [] ∧
    (processRawData env0 initReceiver [1, 0]).currentLine = [] ∧
    (processRawData env0 initReceiver [1, 0]).sentencePipe = [] ∧
    (processRawData env0 initReceiver [1, 0]).dataLength = some 0 ∧
    (processRawData env0 initReceiver [1, 0, b]).currentPacket = [[0]] ∧
    (runChunks env0 initReceiver [[1], [0]]).currentPacket = [[0]] := by
  decide

/-- C10, witness at the concrete following byte `b = 5`. -/
theorem C10_witness :
    (processRawData env0 initReceiver [1, 0]).currentPacket = [] ∧
    (processRawData env0 initReceiver [1, 0]).currentLine = [] ∧
    (processRawData env0 initReceiver [1, 0]).sentencePipe = [] ∧
    (processRawData env0 initReceiver [1, 0]).dataLength = some 0 ∧
    (processRawData env0 initReceiver [1, 0, 5]).currentPacket = [[0]] ∧
    (runChunks env0 initReceiver [[1], [0]]).currentPacket = [[0]] :=
  C10_null_terminator 5 (by decide)

/-! ## Preservation lemmas for the pump -/

theorem sendTagData_sentencePipe (env : Env) (s : Receiver) (t : Word) :
    (sendTagData env s t).sentencePipe = s.sentencePipe := by
  unfold sendTagData cleanUp
  cases env t with
  | none => rfl
  | some cb => cases hcb : cb s.currentPacket <;> simp [hcb]

theorem sendTagData_currentLine (env : Env) (s : Receiver) (t : Word) :
    (sendTagData env s t).currentLine = s.currentLine := by
  unfold sendTagData cleanUp
  cases env t with
  | none => rfl
  | some cb => cases hcb : cb s.currentPacket <;> simp [hcb]

theorem sendTagData_dataLength (env : Env) (s : Receiver) (t : Word) :
    (sendTagData env s t).dataLength = s.dataLength := by
  unfold sendTagData cleanUp
  cases env t with
  | none => rfl
  | some cb => cases hcb : cb s.currentPacket <;> simp [hcb]

theorem sendTagData_segment (env : Env) (s : Receiver) (t : Word) :
    (sendTagData env s t).lengthDescriptorSegment = s.lengthDescriptorSegment := by
  unfold sendTagData cleanUp
  cases env t with
  | none => rfl
  | some cb => cases hcb : cb s.currentPacket <;> simp [hcb]

theorem classifySentence_sentencePipe (env : Env) (line : ISentence) (s : Receiver) :
    (classifySentence env line s).sentencePipe = s.sentencePipe := by
  unfold classifySentence
  split_ifs with h1 h2 h3 <;> simp [sendTagData_sentencePipe]

theorem classifySentence_currentLine (env : Env) (line : ISentence) (s : Receiver) :
    (classifySentence env line s).currentLine = s.currentLine := by
  unfold classifySentence
  split_ifs with h1 h2 h3 <;> simp [sendTagData_currentLine]

theorem classifySentence_dataLength (env : Env) (line : ISentence) (s : Receiver) :
    (classifySentence env line s).dataLength = s.dataLength := by
  unfold classifySentence
  split_ifs with h1 h2 h3 <;> simp [sendTagData_dataLength]

theorem classifySentence_segment (env : Env) (line : ISentence) (s : Receiver) :
    (classifySentence env line s).lengthDescriptorSegment = s.lengthDescriptorSegment := by
  unfold classifySentence
  split_ifs with h1 h2 h3 <;> simp [sendTagData_segment]

theorem process_currentLine (env : Env) :
    ∀ fuel s, (process env fuel s).currentLine = s.currentLine := by
  intro fuel
  induction fuel with
  | zero => intro s; rfl
  | succ fuel ih =>
    intro s
    rw [process]
    cases hp : s.sentencePipe with
    | nil => rfl
    | cons line rest =>
      dsimp only
      split_ifs with h1 h2 h3 h4 h5 <;>
        simp [sendTagData_currentLine, classifySentence_currentLine, ih]

theorem process_dataLength (env : Env) :
    ∀ fuel s, (process env fuel s).dataLength = s.dataLength := by
  intro fuel
  induction fuel with
  | zero => intro s; rfl
  | succ fuel ih =>
    intro s
    rw [process]
    cases hp : s.sentencePipe with
    | nil => rfl
    | cons line rest =>
      dsimp only
      split_ifs with h1 h2 h3 h4 h5 <;>
        simp [sendTagData_dataLength, classifySentence_dataLength, ih]

theorem processSentence_currentLine (env : Env) (s : Receiver) :
    (processSentence env s).currentLine = s.currentLine := by
  unfold processSentence
  split_ifs with h <;> simp [process_currentLine]

theorem processSentence_dataLength (env : Env) (s : Receiver) :
    (processSentence env s).dataLength = s.dataLength := by
  unfold processSentence
  split_ifs with h <;> simp [process_dataLength]

/-! ## Claim C9 -/

/-- C9: `sendTagData` catches a throwing callback (the result state is
the same total function of the input whether the callback returns or
throws — no exception escapes, only an error is logged), drops the
packet without error when the tag is unregistered (`dispatched` is
unchanged, only a log entry is added), and in all outcomes resets the
current packet, current tag and reply classification to empty. -/
theorem C9_flush_resets (env : Env) (s : Receiver) (t : Word) :
    (sendTagData env s t).currentPacket = [] ∧
    (sendTagData env s t).currentTag = none ∧
    (sendTagData env s t).currentReply = [] ∧
    (env t = none →
      sendTagData env s t =
        { s with currentPacket := [], currentTag := none, currentReply := [],
                 errorsLogged := s.errorsLogged + 1 }) ∧
    ((env t).isSome = true →
      (sendTagData env s t).dispatched = s.dispatched ++ [(t, s.currentPacket)]) := by
  unfold sendTagData cleanUp
  cases henv : env t with
  | none => simp
  | some cb => cases hcb : cb s.currentPacket <;> simp [hcb]

/-- C9, witness: a callback that always throws still leaves the state
reset and its invocation recorded. -/
theorem C9_witness :
    (sendTagData envThrow initReceiver [49]).currentPacket = [] ∧
    (sendTagData envThrow initReceiver [49]).dispatched = [([49], [])] :=
  ⟨(C9_flush_resets envThrow initReceiver [49]).1,
   (C9_flush_resets envThrow initReceiver [49]).2.2.2.2 rfl⟩

/-! ## Claim C4 -/

/-- C4: delivering the single sentence `.tag=7`, `!empty` (with its
terminator) to a receiver with a callback registered for tag `7`
dispatches exactly one packet, `["!done"]`, to that callback; and
whenever an `!empty` sentence is dequeued while no tag is open, it is
silently ignored: the state is unchanged except that the sentence left
the queue (no dispatch, no error, no packet change). -/
theorem C4_empty_dispatch :
    (runChunks env7 initReceiver [msgC4]).dispatched = [([55], [doneW])] ∧
    (∀ (env : Env) (s : Receiver) (hm : Bool) (rest : List ISentence),
      s.processingSentencePipe = false → s.currentTag = none →
      s.sentencePipe = ⟨emptyW, hm⟩ :: rest →
      processSentence env s = { s with sentencePipe := rest }) := by
  constructor
  · decide
  · intro env s hm rest h1 h2 h3
    obtain ⟨dl, pipe, flag, cl, cr, ct, cp, seg, disp, fc, el⟩ := s
    simp only at h1 h2 h3
    subst h1; subst h2; subst h3
    simp [processSentence, process, tagTruthy]

/-- C4, witness: the general `!empty`-ignored part at a concrete state. -/
theorem C4_witness :
    processSentence env0 { initReceiver with sentencePipe := [⟨emptyW, true⟩] } =
      { initReceiver with sentencePipe := [] } :=
  C4_empty_dispatch.2 env0 _ true [] rfl rfl rfl

/-! ## Claim C5 (amended part) -/

/-- C5, amended: the fatal event is emitted when a sentence is dequeued
with no trailing bytes in its chunk while the reply classification is
already `!fatal` (set by a previously processed `!fatal` marker): the
pump then emits the fatal signal exactly once and returns early,
changing nothing else — in particular dispatching no packet. -/
theorem C5_amended (env : Env) (s : Receiver) (w : Word) (rest : List ISentence)
    (h1 : s.processingSentencePipe = false)
    (h2 : s.sentencePipe = ⟨w, false⟩ :: rest)
    (h3 : s.currentReply = fatalW)
    (h4 : w ≠ emptyW) :
    processSentence env s =
      { s with sentencePipe := rest, fatalCount := s.fatalCount + 1 } := by
  obtain ⟨dl, pipe, flag, cl, cr, ct, cp, seg, disp, fc, el⟩ := s
  simp only at h1 h2 h3
  subst h1; subst h2; subst h3
  simp [processSentence, process, h4]

/-- C5, witness: a concrete post-`!fatal` sentence triggers exactly one
emission. -/
theorem C5_witness :
    processSentence env0
        { initReceiver with sentencePipe := [⟨[120], false⟩], currentReply := fatalW } =
      { initReceiver with currentReply := fatalW, fatalCount := 1 } :=
  C5_amended env0 _ [120] [] rfl rfl rfl (by decide)

/-! ## Claim C6 -/

theorem jadd_none (x : Option Int) : jadd x none = none := by
  cases x <;> rfl

theorem jbyte_none (l : List Nat) (i : Nat) (h : l.length ≤ i) : jbyte l i = none := by
  simp [jbyte, List.getElem?_eq_none h]

/-- C6, counterexample: on the one-byte buffer `[130]` (a `10xxxxxx`
first byte announcing a 2-byte descriptor, second byte missing)
`decodeLength` returns the pair `(2, NaN)` — the descriptor width
implied by the first byte together with a length computed from the
missing byte — rather than signaling a distinguished insufficient-bytes
condition as the claim states. -/
theorem C6_counterexample :
    decodeLength [130] = (2, none) := by
  decide

/-- C6, amended: `decodeLength` on a non-empty buffer shorter than the
descriptor width implied by its first byte never throws (buffer reads
past the end yield `undefined`, not an exception) and deterministically
returns that implied width paired with a NaN length — the arithmetic
absorbs the missing reads — rather than a distinguished
insufficient-bytes value; callers detect the need-more-data condition
by comparing the returned width against the available byte count
(line 61). -/
theorem C6_amended (b : Nat) (t : List Nat)
    (h : (b :: t).length < descWidth b) :
    decodeLength (b :: t) = (descWidth b, none) := by
  unfold descWidth at h ⊢
  simp only [List.length_cons] at h
  split_ifs at h ⊢ with h1 h2 h3 h4
  · -- 2-byte descriptor, only 1 byte available
    have ht : t = [] := List.eq_nil_of_length_eq_zero (by omega)
    subst ht
    simp only [decodeLength]
    rw [if_pos h1, if_pos h2, jbyte_none _ 1 (by simp), jadd_none]
  · -- 3-byte descriptor, at most 2 bytes available
    simp only [decodeLength]
    rw [if_pos h1, if_neg h2, if_pos h3, jbyte_none _ 2 (by simp; omega), jadd_none]
  · -- 4-byte descriptor, at most 3 bytes available
    simp only [decodeLength]
    rw [if_pos h1, if_neg h2, if_neg h3, if_pos h4, jbyte_none _ 3 (by simp; omega),
      jadd_none]
  · -- 5-byte descriptor, at most 4 bytes available
    simp only [decodeLength]
    rw [if_pos h1, if_neg h2, if_neg h3, if_neg h4, jbyte_none _ 4 (by simp; omega),
      jadd_none]
  · -- 1-byte descriptor: a non-empty buffer is never too short
    omega

/-- C6, witness: a lone `10xxxxxx` byte. -/
theorem C6_witness : decodeLength [130] = (descWidth 130, none) :=
  C6_amended 130 [] (by decide)

/-! ## Claim C7 -/

theorem process_drains (env : Env) : ∀ (fuel : Nat) (s : Receiver),
    s.sentencePipe.length < fuel →
    (process env fuel s).processingSentencePipe = false ∧
    ((process env fuel s).sentencePipe = [] ∨
      ∃ pre line, s.sentencePipe = pre ++ line :: (process env fuel s).sentencePipe ∧
        (line.sentence = emptyW ∨ line.hadMore = false)) := by
  intro fuel
  induction fuel with
  | zero => intro s h; omega
  | succ fuel ih =>
    intro s h
    rw [process]
    cases hp : s.sentencePipe with
    | nil => simp
    | cons line rest =>
      dsimp only
      by_cases h1 : line.sentence = emptyW
      · rw [if_pos h1]
        by_cases h2 : tagTruthy ({ s with sentencePipe := rest }).currentTag
        · rw [if_pos h2]
          refine ⟨rfl, Or.inr ⟨[], line, ?_, Or.inl h1⟩⟩
          simp [sendTagData_sentencePipe, hp]
        · rw [if_neg h2]
          exact ⟨rfl, Or.inr ⟨[], line, by simp [hp], Or.inl h1⟩⟩
      · rw [if_neg h1]
        by_cases h2 : line.hadMore = false ∧
            ({ s with sentencePipe := rest }).currentReply = fatalW
        · rw [if_pos h2]
          exact ⟨rfl, Or.inr ⟨[], line, by simp [hp], Or.inr h2.1⟩⟩
        · rw [if_neg h2]
          have hpipe3 : (classifySentence env line { s with sentencePipe := rest
              }).sentencePipe = rest := classifySentence_sentencePipe env line _
          by_cases h3 : (classifySentence env line { s with sentencePipe := rest
              }).sentencePipe = [] ∧ (classifySentence env line { s with
              sentencePipe := rest }).dataLength = some 0
          · rw [if_pos h3]
            by_cases h4 : line.hadMore = false ∧ tagTruthy (classifySentence env
                line { s with sentencePipe := rest }).currentTag
            · rw [if_pos h4]
              exact ⟨rfl, Or.inl (by simp [sendTagData_sentencePipe, h3.1])⟩
            · rw [if_neg h4]
              exact ⟨rfl, Or.inl h3.1⟩
          · rw [if_neg h3]
            have hlen : (classifySentence env line { s with sentencePipe := rest
                }).sentencePipe.length < fuel := by
              rw [hpipe3]
              have : s.sentencePipe.length < fuel + 1 := h
              rw [hp] at this
              simpa using Nat.lt_of_succ_lt_succ this
            obtain ⟨hflag, hdisj⟩ := ih _ hlen
            refine ⟨hflag, ?_⟩
            rcases hdisj with hnil | ⟨pre, l, heq, hr⟩
            · exact Or.inl hnil
            · refine Or.inr ⟨line :: pre, l, ?_, hr⟩
              rw [hpipe3] at heq
              conv_lhs => rw [heq]
              rfl

/-- C7, amended: a call to `processSentence` with a pump already in
progress returns immediately with the state unchanged (re-entrancy
guard); otherwise the pump dequeues sentences one at a time and returns
with the guard cleared, having either emptied the queue or stopped
early right after dequeuing an `!empty` sentence or a chunk-final
sentence (`hadMore = false`, the fatal path) — in the early-stop cases
unprocessed sentences may remain queued. -/
theorem C7_amended (env : Env) (s : Receiver) :
    (s.processingSentencePipe = true → processSentence env s = s) ∧
    (s.processingSentencePipe = false →
      (processSentence env s).processingSentencePipe = false ∧
      ((processSentence env s).sentencePipe = [] ∨
        ∃ pre line, s.sentencePipe = pre ++ line :: (processSentence env s).sentencePipe ∧
          (line.sentence = emptyW ∨ line.hadMore = false))) := by
  constructor
  · intro hflag
    simp [processSentence, hflag]
  · intro hflag
    have hmain := process_drains env (s.sentencePipe.length + 1)
      { s with processingSentencePipe := true } (by simp)
    simpa [processSentence, hflag] using hmain

/-- C7, witness: from a fresh receiver (guard clear, empty queue) the
pump returns with the guard still clear and the queue empty. -/
theorem C7_witness :
    (processSentence env0 initReceiver).processingSentencePipe = false ∧
    ((processSentence env0 initReceiver).sentencePipe = [] ∨
      ∃ pre line, initReceiver.sentencePipe =
          pre ++ line :: (processSentence env0 initReceiver).sentencePipe ∧
        (line.sentence = emptyW ∨ line.hadMore = false)) :=
  (C7_amended env0 initReceiver).2 rfl

/-! ## Claim C8 -/

theorem startWord_currentLine (s : Receiver) (data : List Nat) :
    (startWord s data).1.currentLine = s.currentLine := by
  unfold startWord
  dsimp only
  split_ifs <;> rfl

theorem rawLoop_inv (env : Env) : ∀ (fuel : Nat) (s : Receiver) (data : List Nat),
    (s.currentLine ≠ [] → jgt0 s.dataLength = true) →
    ((rawLoop env fuel s data).currentLine ≠ [] →
      jgt0 (rawLoop env fuel s data).dataLength = true) := by
  intro fuel
  induction fuel with
  | zero => intro s data h; exact h
  | succ fuel ih =>
    intro s data h
    rw [rawLoop]
    dsimp only
    split_ifs with c1 c2 c3 c4 c5 c6 c7
    all_goals (try (exact h))
    all_goals (try (intro hcl; exact absurd rfl hcl))
    all_goals (try (exact ih _ _ (fun hcl => absurd (by rw [processSentence_currentLine]) hcl)))
    all_goals (try (exact ih _ _ (fun hcl => absurd (h (by rwa [startWord_currentLine] at hcl)) c2)))
    intro hcl
    cases hdl : s.dataLength with
    | none => rw [hdl] at c2; simp [jgt0] at c2
    | some n =>
      rw [hdl] at c3 c4
      simp only [Option.getD_some, Option.some.injEq] at c3 c4 ⊢
      simp only [jgt0, decide_eq_true_eq]
      omega


theorem processRawData_inv (env : Env) (s : Receiver) (data : List Nat)
    (h : s.currentLine ≠ [] → jgt0 s.dataLength = true) :
    (processRawData env s data).currentLine ≠ [] →
      jgt0 (processRawData env s data).dataLength = true := by
  unfold processRawData
  cases s.lengthDescriptorSegment with
  | none => exact rawLoop_inv env _ s data h
  | some seg => exact rawLoop_inv env _ _ _ h

/-- C8, amended: over every sequence of chunks fed from the initial
state, whenever bytes have been accumulated into the current line, the
remaining-bytes-owed counter `dataLength` is a strictly positive
integer (in particular neither negative nor NaN) — so the accumulated
byte count stays strictly below the declared word length (accumulated
plus still-owed).  Between words, however, `dataLength` itself can
become negative (5-byte descriptor whose first payload byte is at least
`0x80`, decoded with signed 32-bit shifts) or NaN (multi-byte
descriptor split across a chunk boundary), as the counterexample
shows. -/
theorem C8_amended (env : Env) (chunks : List (List Nat)) :
    (runChunks env initReceiver chunks).currentLine ≠ [] →
    jgt0 (runChunks env initReceiver chunks).dataLength = true := by
  suffices hgen : ∀ (cs : List (List Nat)) (s : Receiver),
      (s.currentLine ≠ [] → jgt0 s.dataLength = true) →
      ((runChunks env s cs).currentLine ≠ [] →
        jgt0 (runChunks env s cs).dataLength = true) by
    exact hgen chunks initReceiver (fun hcl => absurd rfl hcl)
  intro cs
  induction cs with
  | nil => intro s hs; exact hs
  | cons c cs ih =>
    intro s hs
    exact ih (processRawData env s c) (processRawData_inv env s c hs)

/-- C8, witness: after one chunk that leaves a word in progress
(descriptor 6, one payload byte), the owed counter is positive. -/
theorem C8_witness :
    jgt0 (runChunks env0 initReceiver [[6, 46]]).dataLength = true :=
  C8_amended env0 [[6, 46]] (by decide)

/-! ## Claim C3 (amended part) -/

theorem mask1 (n : Nat) (h : n ≤ 127) : n &&& 128 = 0 := by
  interval_cases n <;> decide

theorem mask2 (q : Nat) (h : q < 64) :
    (128 + q) &&& 128 ≠ 0 ∧ (128 + q) &&& 192 = 128 ∧ (128 + q) &&& 63 = q := by
  interval_cases q <;> decide

theorem mask3 (q : Nat) (h : q < 32) :
    (192 + q) &&& 128 ≠ 0 ∧ ¬(192 + q) &&& 192 = 128 ∧ (192 + q) &&& 224 = 192 ∧
      (192 + q) &&& 31 = q := by
  interval_cases q <;> decide

theorem mask4 (q : Nat) (h : q < 16) :
    (224 + q) &&& 128 ≠ 0 ∧ ¬(224 + q) &&& 192 = 128 ∧ ¬(224 + q) &&& 224 = 192 ∧
      (224 + q) &&& 240 = 224 ∧ (224 + q) &&& 15 = q := by
  interval_cases q <;> decide

theorem shl8_eq (a : Nat) : a <<< 8 = a * 256 := by
  rw [Nat.shiftLeft_eq]

theorem jsToInt32_small (x : Int) (h0 : 0 ≤ x) (h1 : x < 2147483648) :
    jsToInt32 x = x := by
  unfold jsToInt32
  rw [Int.emod_eq_of_lt h0 (by omega)]
  simp [h1]

theorem jadd_nat (x y : Nat) :
    jadd (some (x : Int)) (some (y : Int)) = some ((x + y : Nat) : Int) := by
  simp [jadd]

theorem jshl8_add (x y : Nat) (hx : x < 8388608) :
    jadd (jshl8 (some (x : Int))) (some (y : Int))
      = some ((x * 256 + y : Nat) : Int) := by
  simp only [jshl8]
  rw [jsToInt32_small (x : Int) (by positivity) (by omega)]
  rw [jsToInt32_small ((x : Int) * 256) (by positivity) (by omega)]
  simp [jadd]

/-- C3, amended: decoding the spec encoding of `n` returns exactly the
descriptor width and `n` for every `n` of the 1-, 2-, 3- and 4-byte
classes and for 5-byte-class values up to `2^31 - 1`.  For
`2^31 ≤ n ≤ 2^32 - 1` the claim fails: the four payload bytes are
assembled with JavaScript's signed 32-bit `<<`, so the decoder returns
`n - 2^32` (negative) instead of `n` (see the counterexample). -/
theorem C3_amended (n : Nat) (h : n < 2147483648) :
    decodeLength (encodeLength n) = ((encodeLength n).length, some (n : Int)) := by
  unfold encodeLength
  split_ifs with h1 h2 h3 h4
  · -- 1-byte class
    simp only [decodeLength]
    rw [if_neg (by simp [mask1 n h1])]
    simp
  · -- 2-byte class
    have hq : n / 256 < 64 := by omega
    obtain ⟨m1, m2, m3⟩ := mask2 (n / 256) hq
    simp only [decodeLength]
    rw [if_pos m1, if_pos m2, m3]
    have e1 : jbyte [128 + n / 256, n % 256] 1 = some ((n % 256 : Nat) : Int) := by
      simp [jbyte]
    rw [e1, shl8_eq, jadd_nat]
    have hn : n / 256 * 256 + n % 256 = n := by omega
    rw [hn]
    simp
  · -- 3-byte class
    have hq : n / 65536 < 32 := by omega
    obtain ⟨m1, m2, m3, m4⟩ := mask3 (n / 65536) hq
    simp only [decodeLength]
    rw [if_pos m1, if_neg m2, if_pos m3, m4]
    have e1 : jbyte [192 + n / 65536, n / 256 % 256, n % 256] 1
        = some ((n / 256 % 256 : Nat) : Int) := by simp [jbyte]
    have e2 : jbyte [192 + n / 65536, n / 256 % 256, n % 256] 2
        = some ((n % 256 : Nat) : Int) := by simp [jbyte]
    rw [e1, e2, shl8_eq, jadd_nat,
      jshl8_add (n / 65536 * 256 + n / 256 % 256) (n % 256) (by omega)]
    have hn : (n / 65536 * 256 + n / 256 % 256) * 256 + n % 256 = n := by omega
    rw [hn]
    simp
  · -- 4-byte class
    have hq : n / 16777216 < 16 := by omega
    obtain ⟨m1, m2, m3, m4, m5⟩ := mask4 (n / 16777216) hq
    simp only [decodeLength]
    rw [if_pos m1, if_neg m2, if_neg m3, if_pos m4, m5]
    have e1 : jbyte [224 + n / 16777216, n / 65536 % 256, n / 256 % 256, n % 256] 1
        = some ((n / 65536 % 256 : Nat) : Int) := by simp [jbyte]
    have e2 : jbyte [224 + n / 16777216, n / 65536 % 256, n / 256 % 256, n % 256] 2
        = some ((n / 256 % 256 : Nat) : Int) := by simp [jbyte]
    have e3 : jbyte [224 + n / 16777216, n / 65536 % 256, n / 256 % 256, n % 256] 3
        = some ((n % 256 : Nat) : Int) := by simp [jbyte]
    rw [e1, e2, e3, shl8_eq, jadd_nat,
      jshl8_add (n / 16777216 * 256 + n / 65536 % 256) (n / 256 % 256) (by omega),
      jshl8_add ((n / 16777216 * 256 + n / 65536 % 256) * 256 + n / 256 % 256)
        (n % 256) (by omega)]
    have hn : ((n / 16777216 * 256 + n / 65536 % 256) * 256 + n / 256 % 256) * 256
        + n % 256 = n := by omega
    rw [hn]
    simp
  · -- 5-byte class, n < 2^31
    simp only [decodeLength]
    rw [if_pos (by decide : (240 : Nat) &&& 128 ≠ 0),
      if_neg (by decide : ¬(240 : Nat) &&& 192 = 128),
      if_neg (by decide : ¬(240 : Nat) &&& 224 = 192),
      if_neg (by decide : ¬(240 : Nat) &&& 240 = 224)]
    have e1 : jbyte [240, n / 16777216 % 256, n / 65536 % 256, n / 256 % 256, n % 256] 1
        = some ((n / 16777216 % 256 : Nat) : Int) := by simp [jbyte]
    have e2 : jbyte [240, n / 16777216 % 256, n / 65536 % 256, n / 256 % 256, n % 256] 2
        = some ((n / 65536 % 256 : Nat) : Int) := by simp [jbyte]
    have e3 : jbyte [240, n / 16777216 % 256, n / 65536 % 256, n / 256 % 256, n % 256] 3
        = some ((n / 256 % 256 : Nat) : Int) := by simp [jbyte]
    have e4 : jbyte [240, n / 16777216 % 256, n / 65536 % 256, n / 256 % 256, n % 256] 4
        = some ((n % 256 : Nat) : Int) := by simp [jbyte]
    rw [e1, e2, e3, e4,
      jshl8_add (n / 16777216 % 256) (n / 65536 % 256) (by omega),
      jshl8_add (n / 16777216 % 256 * 256 + n / 65536 % 256) (n / 256 % 256) (by omega),
      jshl8_add ((n / 16777216 % 256 * 256 + n / 65536 % 256) * 256 + n / 256 % 256)
        (n % 256) (by omega)]
    have hn : ((n / 16777216 % 256 * 256 + n / 65536 % 256) * 256 + n / 256 % 256) * 256
        + n % 256 = n := by omega
    rw [hn]
    simp

/-- C3, witness at `n = 300` (2-byte class). -/
theorem C3_witness :
    decodeLength (encodeLength 300) = ((encodeLength 300).length, some ((300 : Nat) : Int)) :=
  C3_amended 300 (by decide)

end StreamApi
